import Mathlib

/-! plgen: the sampling driver of `src/plgen.c`

A shallow embedding of `sample()` (src/plgen.c, lines 118-184) and of the
global `opts` it reads and mutates.

Modelling conventions.

* `long int` values are `Int`.  The only arithmetic `sample()` performs on
  them is `-i` for `1 <= i < 100000` and `opts.num_samples -= n` with
  `0 < n <= opts.num_samples`; neither can leave the range of a `long int`.
* `double` values are exact rationals (`ℚ`): the arithmetic of C on finite
  doubles without rounding, infinities or NaN.  The conversion
  `(long int) x` discards the fractional part (C11 6.3.1.4), which is
  `Int.tdiv x.num x.den`.
* `exp` and `pow` (libm), `calloc`, and the three operations of the alias
  sampler (`plfit_walker_alias_sampler_init`, `..._sample`, `..._destroy`,
  declared in `sampling.h`, which is not part of `src/`) are parameters of
  the model, collected in `Env`.
* What `sample()` does to the outside world is recorded in an `Outcome`:
  the returned code, the lines written to `stdout`, the ordered list of
  external calls (`trace`), and the final value of `opts.num_samples`.
-/

namespace Plgen

/-- The record type `cmd_options_t` of src/plgen.c, lines 28-34. -/
structure cmd_options_t where
  num_samples : Int
  gamma : ℚ
  kappa : ℚ
  offset : ℚ
  continuous : Bool

/-- The external functions `sample()` calls.  `S` is the state of the alias
sampler together with the random source it draws from.

* `calloc_ok`: whether `calloc(num_probs, sizeof(double))` returns non-null;
* `sampler_init probs`: `none` when `plfit_walker_alias_sampler_init`
  returns non-zero, otherwise the freshly built sampler;
* `sampler_sample s n`: the contents of the buffer `samples` after
  `plfit_walker_alias_sampler_sample(&sampler, samples, n)` (as a function
  of the index; only indices below `n` are ever read) and the next state. -/
structure Env (S : Type) where
  exp : ℚ → ℚ
  pow : ℚ → ℚ → ℚ
  calloc_ok : Bool
  sampler_init : List ℚ → Option S
  sampler_sample : S → Nat → (Nat → Int) × S

/-- The four messages `sample()` writes to `stderr`. -/
inductive Msg where
  | not_enough_memory
  | kappa_may_not_be_zero
  | error_while_initializing_sampler
  | continuous_not_implemented
  deriving DecidableEq, Repr

/-- The externally visible steps of `sample()`, in program order. -/
inductive Event where
  | calloc (ok : Bool)
  | sampler_init (probs : List ℚ) (ok : Bool)
  | free_probs
  | sampler_sample (n : Nat) (xs : List Int)
  | sampler_destroy
  | stderr (m : Msg)
  deriving DecidableEq

/-- What one call of `sample()` does: return code, lines printed on
`stdout`, external calls in order, the value left in `opts.num_samples`,
and the sampler state at exit (`none` if no sampler was ever built). -/
structure Outcome (S : Type) where
  ret : Int
  stdout : List Int
  trace : List Event
  num_samples : Int
  sampler : Option S

/-- The constant `BLOCK_SIZE` (line 119). -/
def BLOCK_SIZE : Int := 16384

/-- The constant `num_probs` (line 130). -/
def num_probs : Nat := 100000

/-- The C conversion `(long int) x` of a double: the fractional part is
discarded (rounding toward zero). -/
def to_long (x : ℚ) : Int := Int.tdiv x.num x.den

/-- The loops of lines 143-145 and 148-150:
`for (i = 1; i < num_probs; i++) probs[i] = w(i);`. -/
def fill_probs (w : Int → ℚ) (probs : List ℚ) : List ℚ :=
  (List.range' 1 (num_probs - 1)).foldl (fun p i => p.set i (w (i : Int))) probs

/-- Lines 131-151 for `kappa != 0`: the zeroed array of `calloc`,
`probs[0] = 0`, then one of the two fill loops. -/
def build_probs {S : Type} (E : Env S) (gamma kappa : ℚ) : List ℚ :=
  let probs := (List.replicate num_probs (0 : ℚ)).set 0 0
  if kappa > 0 then
    fill_probs (fun i => E.exp (((-i : Int) : ℚ) / kappa) * E.pow (i : ℚ) (-gamma)) probs
  else
    fill_probs (fun i => E.pow (i : ℚ) (-gamma)) probs

/-- The `printf` loop of lines 172-174 over the first `n` buffer entries. -/
def print_block (offset : ℚ) (samples : Nat → Int) (n : Nat) : List Int :=
  (List.range n).map (fun i => to_long ((samples i : ℚ) + offset))

/-- The `while` loop of lines 164-178 followed by lines 180-183, started
with sampler state `s` and `opts.num_samples = num_samples`. -/
def sample_loop {S : Type} (E : Env S) (offset : ℚ) (continuous : Bool)
    (s : S) (num_samples : Int) : Outcome S :=
  if num_samples > 0 then
    let n : Int := if num_samples > BLOCK_SIZE then BLOCK_SIZE else num_samples
    let r := E.sampler_sample s n.toNat
    let drawn := Event.sampler_sample n.toNat ((List.range n.toNat).map r.1)
    if continuous then
      { ret := 5
        stdout := []
        trace := [drawn, Event.stderr Msg.continuous_not_implemented]
        num_samples := num_samples
        sampler := some r.2 }
    else
      let rest := sample_loop E offset continuous r.2 (num_samples - n)
      { ret := rest.ret
        stdout := print_block offset r.1 n.toNat ++ rest.stdout
        trace := drawn :: rest.trace
        num_samples := rest.num_samples
        sampler := rest.sampler }
  else
    { ret := 0
      stdout := []
      trace := [Event.sampler_destroy]
      num_samples := num_samples
      sampler := some s }
termination_by num_samples.toNat
decreasing_by
  simp only [BLOCK_SIZE] at *
  split <;> omega

/-- The function `sample()` of src/plgen.c, lines 118-184. -/
def sample {S : Type} (E : Env S) (opts : cmd_options_t) : Outcome S :=
  if opts.num_samples ≤ 0 then
    { ret := 0, stdout := [], trace := [], num_samples := opts.num_samples, sampler := none }
  else if E.calloc_ok = false then
    { ret := 7
      stdout := []
      trace := [Event.calloc false, Event.stderr Msg.not_enough_memory]
      num_samples := opts.num_samples
      sampler := none }
  else if opts.kappa = 0 then
    { ret := 8
      stdout := []
      trace := [Event.calloc true, Event.stderr Msg.kappa_may_not_be_zero]
      num_samples := opts.num_samples
      sampler := none }
  else
    let probs := build_probs E opts.gamma opts.kappa
    match E.sampler_init probs with
    | none =>
      { ret := 9
        stdout := []
        trace := [Event.calloc true, Event.sampler_init probs false,
                  Event.stderr Msg.error_while_initializing_sampler, Event.free_probs]
        num_samples := opts.num_samples
        sampler := none }
    | some s =>
      let r := sample_loop E opts.offset opts.continuous s opts.num_samples
      { ret := r.ret
        stdout := r.stdout
        trace := [Event.calloc true, Event.sampler_init probs true, Event.free_probs] ++ r.trace
        num_samples := r.num_samples
        sampler := r.sampler }

/-! ## Observations on a trace -/

/-- The block sizes requested from the sampler, in order. -/
def requests : List Event → List Nat
  | [] => []
  | Event.sampler_sample n _ :: t => n :: requests t
  | _ :: t => requests t

/-- The indices the sampler delivered, in draw order. -/
def drawn : List Event → List Int
  | [] => []
  | Event.sampler_sample _ xs :: t => xs ++ drawn t
  | _ :: t => drawn t

/-- The weight tables handed to `plfit_walker_alias_sampler_init`. -/
def init_tables : List Event → List (List ℚ)
  | [] => []
  | Event.sampler_init probs _ :: t => probs :: init_tables t
  | _ :: t => init_tables t

/-- How often `plfit_walker_alias_sampler_destroy` is called. -/
def destroy_count (t : List Event) : Nat := t.count Event.sampler_destroy

/-- The block sizes as the specification words them: `total / 16384` blocks
of exactly 16384, then one block of `total % 16384` when that is not zero. -/
def spec_block_sizes (total : Nat) : List Nat :=
  List.replicate (total / 16384) 16384 ++
    (if total % 16384 = 0 then [] else [total % 16384])

/-! ## Concrete environments and inputs -/

/-- A closed environment for running the model on concrete inputs: rational
stand-ins for `exp` and `pow`, an allocator that succeeds, and a sampler
whose state is a counter `c` and which fills the buffer with
`1 + (c + i) % 5`. -/
def counter_env : Env Nat where
  exp := fun x => 1 / (1 + x * x)
  pow := fun x y => 1 / (1 + x * x + y * y)
  calloc_ok := true
  sampler_init := fun _ => some 0
  sampler_sample := fun c n => (fun i => ((1 + (c + i) % 5 : Nat) : Int), c + n)

/-- The environment `counter_env` with a sampler whose construction fails. -/
def failing_init_env : Env Nat where
  exp := counter_env.exp
  pow := counter_env.pow
  calloc_ok := true
  sampler_init := fun _ => none
  sampler_sample := counter_env.sampler_sample

/-- The environment `counter_env` with an allocator that fails. -/
def no_memory_env : Env Nat where
  exp := counter_env.exp
  pow := counter_env.pow
  calloc_ok := false
  sampler_init := counter_env.sampler_init
  sampler_sample := counter_env.sampler_sample

/-- Options `12345 2`: pure power law, less than one block. -/
def opts_12345 : cmd_options_t := ⟨12345, 2, -1, 0, false⟩

/-- Options `-k 10 -o 3 40000 2.5`: cutoff regime, three blocks. -/
def opts_three_blocks : cmd_options_t := ⟨40000, 5 / 2, 10, 3, false⟩

/-- Options `-k 0 0 2`: zero cutoff and nothing to sample. -/
def opts_nothing_kappa_zero : cmd_options_t := ⟨0, 2, 0, 0, false⟩

/-- Options `-k 0 5 2`: zero cutoff, five samples. -/
def opts_kappa_zero : cmd_options_t := ⟨5, 2, 0, 0, false⟩

/-- Options `-c 5 2`: continuous sampling, five samples. -/
def opts_continuous : cmd_options_t := ⟨5, 2, -1, 0, true⟩

/-- Options `-c -k 0 5 2`: continuous sampling with zero cutoff. -/
def opts_continuous_kappa_zero : cmd_options_t := ⟨5, 2, 0, 0, true⟩

/-- Options `-c -k 0 -o 0.5 -- -3 2`: a negative sample count. -/
def opts_negative_count : cmd_options_t := ⟨-3, 2, 0, 1 / 2, true⟩

/-! ## Unfolding the loop -/

theorem sample_loop_pos {S : Type} (E : Env S) (offset : ℚ) (continuous : Bool)
    (s : S) (r : Int) (h : 0 < r) :
    sample_loop E offset continuous s r =
      if continuous then
        { ret := 5
          stdout := []
          trace := [Event.sampler_sample (min r BLOCK_SIZE).toNat
                      ((List.range (min r BLOCK_SIZE).toNat).map
                        (E.sampler_sample s (min r BLOCK_SIZE).toNat).1),
                    Event.stderr Msg.continuous_not_implemented]
          num_samples := r
          sampler := some (E.sampler_sample s (min r BLOCK_SIZE).toNat).2 }
      else
        { ret := (sample_loop E offset continuous
              (E.sampler_sample s (min r BLOCK_SIZE).toNat).2 (r - min r BLOCK_SIZE)).ret
          stdout := print_block offset (E.sampler_sample s (min r BLOCK_SIZE).toNat).1
                (min r BLOCK_SIZE).toNat ++
              (sample_loop E offset continuous
                (E.sampler_sample s (min r BLOCK_SIZE).toNat).2 (r - min r BLOCK_SIZE)).stdout
          trace := Event.sampler_sample (min r BLOCK_SIZE).toNat
                ((List.range (min r BLOCK_SIZE).toNat).map
                  (E.sampler_sample s (min r BLOCK_SIZE).toNat).1) ::
              (sample_loop E offset continuous
                (E.sampler_sample s (min r BLOCK_SIZE).toNat).2 (r - min r BLOCK_SIZE)).trace
          num_samples := (sample_loop E offset continuous
              (E.sampler_sample s (min r BLOCK_SIZE).toNat).2 (r - min r BLOCK_SIZE)).num_samples
          sampler := (sample_loop E offset continuous
              (E.sampler_sample s (min r BLOCK_SIZE).toNat).2 (r - min r BLOCK_SIZE)).sampler } := by
  have hn : (if r > BLOCK_SIZE then BLOCK_SIZE else r) = min r BLOCK_SIZE := by
    simp only [BLOCK_SIZE]; split <;> omega
  rw [sample_loop]
  simp only [gt_iff_lt, h, if_true, hn]

theorem sample_loop_nonpos {S : Type} (E : Env S) (offset : ℚ) (continuous : Bool)
    (s : S) (r : Int) (h : r ≤ 0) :
    sample_loop E offset continuous s r =
      { ret := 0, stdout := [], trace := [Event.sampler_destroy], num_samples := r,
        sampler := some s } := by
  rw [sample_loop]
  simp only [gt_iff_lt, not_lt.mpr h, if_false]


theorem spec_block_sizes_zero : spec_block_sizes 0 = [] := by
  simp [spec_block_sizes]

theorem spec_block_sizes_step (r : Nat) (h : 0 < r) :
    spec_block_sizes r = min r 16384 :: spec_block_sizes (r - min r 16384) := by
  unfold spec_block_sizes
  rcases Nat.lt_or_ge r 16384 with hlt | hge
  · have h1 : min r 16384 = r := by omega
    have h2 : r / 16384 = 0 := Nat.div_eq_of_lt hlt
    have h3 : r % 16384 = r := Nat.mod_eq_of_lt hlt
    have h4 : r ≠ 0 := by omega
    simp [h1, h2, h3, h4]
  · have h1 : min r 16384 = 16384 := by omega
    have h2 : r / 16384 = (r - 16384) / 16384 + 1 := by omega
    have h3 : r % 16384 = (r - 16384) % 16384 := by omega
    rw [h1, h2, h3, List.replicate_succ, List.cons_append]

theorem print_block_eq (offset : ℚ) (samples : Nat → Int) (n : Nat) :
    print_block offset samples n =
      ((List.range n).map samples).map (fun (k : Int) => to_long ((k : ℚ) + offset)) := by
  simp [print_block, List.map_map, Function.comp_def]

theorem sample_loop_discrete_exit {S : Type} (E : Env S) (offset : ℚ) (k : Nat) :
    ∀ (s : S) (r : Int), 0 ≤ r → r.toNat = k →
      (sample_loop E offset false s r).ret = 0 ∧
      (sample_loop E offset false s r).num_samples = 0 ∧
      destroy_count (sample_loop E offset false s r).trace = 1 := by
  induction k using Nat.strong_induction_on with
  | _ k ih =>
    intro s r h0 hk
    rcases eq_or_lt_of_le h0 with h | h
    · rw [sample_loop_nonpos _ _ _ _ _ (le_of_eq h.symm)]
      simp [destroy_count, h.symm]
    · rw [sample_loop_pos _ _ _ _ _ h]
      have hlt : (r - min r BLOCK_SIZE).toNat < k := by
        simp only [BLOCK_SIZE]; omega
      have hge : 0 ≤ r - min r BLOCK_SIZE := by
        simp only [BLOCK_SIZE]; omega
      obtain ⟨h1, h2, h3⟩ := ih _ hlt (E.sampler_sample s (min r BLOCK_SIZE).toNat).2
        (r - min r BLOCK_SIZE) hge rfl
      simp only [Bool.false_eq_true, if_false]
      refine ⟨h1, h2, ?_⟩
      simpa [destroy_count] using h3

theorem sample_loop_discrete_requests {S : Type} (E : Env S) (offset : ℚ) (k : Nat) :
    ∀ (s : S) (r : Int), r.toNat = k →
      requests (sample_loop E offset false s r).trace = spec_block_sizes r.toNat := by
  induction k using Nat.strong_induction_on with
  | _ k ih =>
    intro s r hk
    rcases le_or_lt r 0 with h | h
    · rw [sample_loop_nonpos _ _ _ _ _ h]
      have : r.toNat = 0 := by omega
      simp [requests, this, spec_block_sizes_zero]
    · rw [sample_loop_pos _ _ _ _ _ h]
      have hlt : (r - min r BLOCK_SIZE).toNat < k := by
        simp only [BLOCK_SIZE]; omega
      have h1 := ih _ hlt (E.sampler_sample s (min r BLOCK_SIZE).toNat).2
        (r - min r BLOCK_SIZE) rfl
      simp only [Bool.false_eq_true, if_false, requests, h1]
      rw [spec_block_sizes_step r.toNat (by omega)]
      have e1 : (min r BLOCK_SIZE).toNat = min r.toNat 16384 := by
        simp only [BLOCK_SIZE]; omega
      have e2 : (r - min r BLOCK_SIZE).toNat = r.toNat - min r.toNat 16384 := by
        simp only [BLOCK_SIZE]; omega
      rw [e1, e2]

theorem sample_loop_discrete_stdout {S : Type} (E : Env S) (offset : ℚ) (k : Nat) :
    ∀ (s : S) (r : Int), r.toNat = k →
      (sample_loop E offset false s r).stdout =
          (drawn (sample_loop E offset false s r).trace).map
            (fun (k : Int) => to_long ((k : ℚ) + offset)) ∧
      (sample_loop E offset false s r).stdout.length = r.toNat := by
  induction k using Nat.strong_induction_on with
  | _ k ih =>
    intro s r hk
    rcases le_or_lt r 0 with h | h
    · rw [sample_loop_nonpos _ _ _ _ _ h]
      have : r.toNat = 0 := by omega
      simp [drawn, this]
    · rw [sample_loop_pos _ _ _ _ _ h]
      have hlt : (r - min r BLOCK_SIZE).toNat < k := by
        simp only [BLOCK_SIZE]; omega
      obtain ⟨h1, h2⟩ := ih _ hlt (E.sampler_sample s (min r BLOCK_SIZE).toNat).2
        (r - min r BLOCK_SIZE) rfl
      simp only [Bool.false_eq_true, if_false, drawn, List.map_append, List.length_append]
      refine ⟨?_, ?_⟩
      · rw [print_block_eq, ← h1]
      · rw [h2, print_block_eq]
        simp only [List.length_map, List.length_range, BLOCK_SIZE]
        omega

theorem sample_loop_discrete_block {S : Type} (E : Env S) (offset : ℚ) (k : Nat) :
    ∀ (s : S) (r : Int), r.toNat = k → ∀ (pre : List Nat) (n : Nat) (post : List Nat),
      requests (sample_loop E offset false s r).trace = pre ++ n :: post →
        (n : Int) = min (r - (pre.sum : Nat)) BLOCK_SIZE ∧ 1 ≤ n ∧
          0 ≤ r - (pre.sum : Nat) - (n : Int) := by
  induction k using Nat.strong_induction_on with
  | _ k ih =>
    intro s r hk pre n post hreq
    rcases le_or_lt r 0 with h | h
    · rw [sample_loop_nonpos _ _ _ _ _ h] at hreq
      simp [requests] at hreq
    · rw [sample_loop_pos _ _ _ _ _ h] at hreq
      have hlt : (r - min r BLOCK_SIZE).toNat < k := by
        simp only [BLOCK_SIZE]; omega
      simp only [Bool.false_eq_true, if_false, requests] at hreq
      cases pre with
      | nil =>
        simp only [List.nil_append, List.cons.injEq] at hreq
        obtain ⟨hn, -⟩ := hreq
        simp only [List.sum_nil, BLOCK_SIZE] at *
        omega
      | cons a pre =>
        simp only [List.cons_append, List.cons.injEq] at hreq
        obtain ⟨ha, hrest⟩ := hreq
        obtain ⟨h1, h2, h3⟩ := ih _ hlt (E.sampler_sample s (min r BLOCK_SIZE).toNat).2
          (r - min r BLOCK_SIZE) rfl pre n post hrest
        simp only [List.sum_cons, BLOCK_SIZE] at *
        omega

theorem sample_of_init {S : Type} (E : Env S) (opts : cmd_options_t) (s : S)
    (hpos : 0 < opts.num_samples) (hk : opts.kappa ≠ 0) (halloc : E.calloc_ok = true)
    (hinit : E.sampler_init (build_probs E opts.gamma opts.kappa) = some s) :
    sample E opts =
      { ret := (sample_loop E opts.offset opts.continuous s opts.num_samples).ret
        stdout := (sample_loop E opts.offset opts.continuous s opts.num_samples).stdout
        trace := [Event.calloc true,
                  Event.sampler_init (build_probs E opts.gamma opts.kappa) true,
                  Event.free_probs] ++
                 (sample_loop E opts.offset opts.continuous s opts.num_samples).trace
        num_samples := (sample_loop E opts.offset opts.continuous s opts.num_samples).num_samples
        sampler := (sample_loop E opts.offset opts.continuous s opts.num_samples).sampler } := by
  unfold sample
  simp only [not_le.mpr hpos, halloc, hk, hinit, if_false, Bool.true_eq_false]

theorem requests_setup (probs : List ℚ) (t : List Event) :
    requests ([Event.calloc true, Event.sampler_init probs true, Event.free_probs] ++ t) =
      requests t := by
  simp [requests]

/-- Claim C1: with `total_count > 0`, `kappa != 0`, `continuous = false`, and
the table allocated and the sampler constructed, `sample()` prints exactly
`total_count` lines and returns 0, whatever `gamma` and `offset` are. -/
theorem discrete_run_prints_total_count {S : Type} (E : Env S) (opts : cmd_options_t) (s : S)
    (hpos : 0 < opts.num_samples) (hk : opts.kappa ≠ 0) (hc : opts.continuous = false)
    (halloc : E.calloc_ok = true)
    (hinit : E.sampler_init (build_probs E opts.gamma opts.kappa) = some s) :
    ((sample E opts).stdout.length : Int) = opts.num_samples ∧ (sample E opts).ret = 0 := by
  rw [sample_of_init E opts s hpos hk halloc hinit, hc]
  have h1 := (sample_loop_discrete_stdout E opts.offset _ s opts.num_samples rfl).2
  have h2 := (sample_loop_discrete_exit E opts.offset _ s opts.num_samples (le_of_lt hpos) rfl).1
  refine ⟨?_, h2⟩
  simp only [h1]
  exact Int.toNat_of_nonneg (le_of_lt hpos)

/-- Witness for C1 at `total_count = 12345` (less than one block) and at
`total_count = 40000` (three blocks). -/
theorem discrete_run_prints_total_count_witness :
    (((sample counter_env opts_12345).stdout.length : Int) = 12345 ∧
      (sample counter_env opts_12345).ret = 0) ∧
    (((sample counter_env opts_three_blocks).stdout.length : Int) = 40000 ∧
      (sample counter_env opts_three_blocks).ret = 0) :=
  ⟨discrete_run_prints_total_count counter_env opts_12345 0 (by decide)
      (by norm_num [opts_12345]) rfl rfl rfl,
    discrete_run_prints_total_count counter_env opts_three_blocks 0 (by decide)
      (by norm_num [opts_three_blocks]) rfl rfl rfl⟩

/-- Counterexample to C2 as stated: with `kappa == 0` and `total_count = 0`
the run returns 0, not 8; and with `kappa == 0`, `total_count = 5` and a
failing `calloc` it returns 7. -/
theorem kappa_zero_not_always_code_8 :
    opts_nothing_kappa_zero.kappa = 0 ∧ (sample counter_env opts_nothing_kappa_zero).ret = 0 ∧
    opts_kappa_zero.kappa = 0 ∧ (sample no_memory_env opts_kappa_zero).ret = 7 := by
  refine ⟨rfl, ?_, rfl, ?_⟩
  · simp [sample, opts_nothing_kappa_zero]
  · simp [sample, opts_kappa_zero, no_memory_env]

/-- Claim C2, amended: for every `gamma` and every `total_count > 0`, once the
probability array has been allocated, a run with `kappa == 0` returns 8,
prints no line, and neither constructs nor draws from a sampler. -/
theorem kappa_zero_returns_8 {S : Type} (E : Env S) (opts : cmd_options_t)
    (hpos : 0 < opts.num_samples) (halloc : E.calloc_ok = true) (hk : opts.kappa = 0) :
    (sample E opts).ret = 8 ∧ (sample E opts).stdout = [] ∧
      init_tables (sample E opts).trace = [] ∧ requests (sample E opts).trace = [] ∧
      (sample E opts).sampler = none := by
  unfold sample
  simp [not_le.mpr hpos, halloc, hk, init_tables, requests]

/-- Witness for the amended C2 at `-k 0 5 2`. -/
theorem kappa_zero_returns_8_witness :
    0 < opts_kappa_zero.num_samples ∧ opts_kappa_zero.kappa = 0 ∧
      (sample counter_env opts_kappa_zero).ret = 8 ∧
      (sample counter_env opts_kappa_zero).stdout = [] :=
  ⟨by decide, rfl,
    (kappa_zero_returns_8 counter_env opts_kappa_zero (by decide) rfl rfl).1,
    (kappa_zero_returns_8 counter_env opts_kappa_zero (by decide) rfl rfl).2.1⟩

/-- Claim C3 evaluated on the code at `-c 5 2`: the sampler is constructed,
`sample()` returns 5, and `plfit_walker_alias_sampler_destroy` is never
called; on the discrete run `12345 2` it is called exactly once. -/
theorem continuous_exit_skips_destroy :
    (init_tables (sample counter_env opts_continuous).trace).length = 1 ∧
    (sample counter_env opts_continuous).ret = 5 ∧
    destroy_count (sample counter_env opts_continuous).trace = 0 ∧
    destroy_count (sample counter_env opts_12345).trace = 1 := by
  refine ⟨?_, ?_, ?_, ?_⟩
  · rw [sample_of_init counter_env opts_continuous 0 (by decide)
      (by norm_num [opts_continuous]) rfl rfl]
    simp [init_tables, opts_continuous, sample_loop_pos]
  · rw [sample_of_init counter_env opts_continuous 0 (by decide)
      (by norm_num [opts_continuous]) rfl rfl]
    simp [opts_continuous, sample_loop_pos]
  · rw [sample_of_init counter_env opts_continuous 0 (by decide)
      (by norm_num [opts_continuous]) rfl rfl]
    simp [destroy_count, opts_continuous, sample_loop_pos]
  · rw [sample_of_init counter_env opts_12345 0 (by decide)
      (by norm_num [opts_12345]) rfl rfl]
    have h := (sample_loop_discrete_exit counter_env opts_12345.offset _ 0
      opts_12345.num_samples (by decide) rfl).2.2
    simpa [destroy_count] using h

/-- Counterexample to C4 as stated: with `continuous = true` and
`total_count = 5`, the run returns 8 when `kappa == 0`, and 9 when the
sampler cannot be constructed. -/
theorem continuous_not_always_code_5 :
    opts_continuous_kappa_zero.continuous = true ∧
      (sample counter_env opts_continuous_kappa_zero).ret = 8 ∧
    opts_continuous.continuous = true ∧
      (sample failing_init_env opts_continuous).ret = 9 := by
  refine ⟨rfl, ?_, rfl, ?_⟩
  · simp [sample, opts_continuous_kappa_zero, counter_env]
  · have hk : opts_continuous.kappa ≠ 0 := by norm_num [opts_continuous]
    have hn : ¬ opts_continuous.num_samples ≤ 0 := by decide
    unfold sample
    simp only [hn, hk, if_false]
    simp [failing_init_env]

/-- Claim C4, amended: for every `total_count > 0`, every `gamma`, every
`kappa != 0` and every `offset`, once the table has been allocated and the
sampler constructed, a run with `continuous = true` returns 5 and prints no
line. -/
theorem continuous_run_returns_5 {S : Type} (E : Env S) (opts : cmd_options_t) (s : S)
    (hpos : 0 < opts.num_samples) (hk : opts.kappa ≠ 0) (hc : opts.continuous = true)
    (halloc : E.calloc_ok = true)
    (hinit : E.sampler_init (build_probs E opts.gamma opts.kappa) = some s) :
    (sample E opts).ret = 5 ∧ (sample E opts).stdout = [] := by
  rw [sample_of_init E opts s hpos hk halloc hinit, hc, sample_loop_pos _ _ _ _ _ hpos]
  simp

/-- Witness for the amended C4 at `-c 5 2`. -/
theorem continuous_run_returns_5_witness :
    0 < opts_continuous.num_samples ∧ opts_continuous.kappa ≠ 0 ∧
      opts_continuous.continuous = true ∧
      (sample counter_env opts_continuous).ret = 5 ∧
      (sample counter_env opts_continuous).stdout = [] :=
  ⟨by decide, by norm_num [opts_continuous], rfl,
    continuous_run_returns_5 counter_env opts_continuous 0 (by decide)
      (by norm_num [opts_continuous]) rfl rfl rfl⟩

/-- Claim C5: for every `total_count <= 0`, whatever `gamma`, `kappa`,
`offset` and `continuous` are, `sample()` returns 0, prints no line and makes
no external call at all: no allocation, no weight table, no sampler
construction and no draw. -/
theorem nonpositive_count_is_trivial_success {S : Type} (E : Env S) (opts : cmd_options_t)
    (h : opts.num_samples ≤ 0) :
    (sample E opts).ret = 0 ∧ (sample E opts).stdout = [] ∧ (sample E opts).trace = [] ∧
      (sample E opts).sampler = none ∧ (sample E opts).num_samples = opts.num_samples := by
  unfold sample
  simp [h]

/-- Witness for C5 at `total_count = -3` with `kappa == 0` and `continuous`
set. -/
theorem nonpositive_count_is_trivial_success_witness :
    opts_negative_count.num_samples ≤ 0 ∧
      (sample counter_env opts_negative_count).ret = 0 ∧
      (sample counter_env opts_negative_count).stdout = [] ∧
      (sample counter_env opts_negative_count).trace = [] :=
  ⟨by decide,
    (nonpositive_count_is_trivial_success counter_env opts_negative_count (by decide)).1,
    (nonpositive_count_is_trivial_success counter_env opts_negative_count (by decide)).2.1,
    (nonpositive_count_is_trivial_success counter_env opts_negative_count (by decide)).2.2.1⟩

/-- Claim C9: for every `total_count > 0` in the discrete case the loop ends
with return code 0 and `opts.num_samples = 0`; the block sizes requested are
`total_count / 16384` blocks of 16384 followed by one block of
`total_count % 16384` when that is not zero; and every request `n`, made
when `total_count - (sum of earlier requests)` samples remain, equals the
minimum of that remaining count and 16384, is between 1 and 16384, and
leaves a remaining count that is not negative. -/
theorem block_requests {S : Type} (E : Env S) (opts : cmd_options_t) (s : S)
    (hpos : 0 < opts.num_samples) (hk : opts.kappa ≠ 0) (hc : opts.continuous = false)
    (halloc : E.calloc_ok = true)
    (hinit : E.sampler_init (build_probs E opts.gamma opts.kappa) = some s) :
    (sample E opts).ret = 0 ∧ (sample E opts).num_samples = 0 ∧
      requests (sample E opts).trace = spec_block_sizes opts.num_samples.toNat ∧
      ∀ (pre : List Nat) (n : Nat) (post : List Nat),
        requests (sample E opts).trace = pre ++ n :: post →
          (n : Int) = min (opts.num_samples - (pre.sum : Nat)) 16384 ∧
            1 ≤ n ∧ n ≤ 16384 ∧ 0 ≤ opts.num_samples - (pre.sum : Nat) - (n : Int) := by
  rw [sample_of_init E opts s hpos hk halloc hinit, hc]
  obtain ⟨h1, h2, -⟩ :=
    sample_loop_discrete_exit E opts.offset _ s opts.num_samples (le_of_lt hpos) rfl
  simp only [requests_setup]
  refine ⟨h1, h2, sample_loop_discrete_requests E opts.offset _ s opts.num_samples rfl, ?_⟩
  intro pre n post hreq
  obtain ⟨h3, h4, h5⟩ :=
    sample_loop_discrete_block E opts.offset _ s opts.num_samples rfl pre n post hreq
  simp only [BLOCK_SIZE] at h3
  refine ⟨h3, h4, ?_, h5⟩
  omega

/-- Witness for C9 at `-k 10 -o 3 40000 2.5`: the requests are 16384, 16384
and 7232. -/
theorem block_requests_witness :
    0 < opts_three_blocks.num_samples ∧
      (sample counter_env opts_three_blocks).num_samples = 0 ∧
      requests (sample counter_env opts_three_blocks).trace = [16384, 16384, 7232] :=
  ⟨by decide,
    (block_requests counter_env opts_three_blocks 0 (by decide)
      (by norm_num [opts_three_blocks]) rfl rfl rfl).2.1,
    (block_requests counter_env opts_three_blocks 0 (by decide)
      (by norm_num [opts_three_blocks]) rfl rfl rfl).2.2.1.trans (by decide)⟩

end Plgen
